import Mathlib

/-!
# Halley: pack resource locator, asset types, async resources, GL debug queue

A shallow embedding of

* `src/engine/core/src/resources/resource_pack.cpp` (`PackResourceLocator`),
* `src/engine/utils/include/halley/resources/resource.h` (`AssetType`,
  `EnumNames<AssetType>`, `AsyncResource`),
* `halley/opengl/src/video_opengl.cpp` (`setUpEnumMap`, `onGLDebugMessage`, `flip`,
  `updateWindowDimensions`),

followed by the properties established about them.

Conventions of the embedding.

* A C++ object with mutable members is a structure; a member function is a
  function from the old structure to the new one.
* `std::unique_ptr<T>` that may be null is `Option T`; a raw pointer that may be
  unset is `Option T` as well.
* A finite `float` is the rational number it represents; every `float` operation
  rounds its exact result once, with the rounding as a parameter.
* Calls into classes declared outside the translated sources (`AssetPack`,
  `SystemAPI`, `ResourceDataReader`, `String`) are fields of `Collaborators`.
* A member function that calls collaborators returns a `Run`: how the call ended,
  the object afterwards, and the collaborator calls it made, in order.
-/

namespace Halley

/-! ## resource.h: asset types -/

/-- The enumeration `AssetType` of resource.h, enumerators in source order. -/
inductive AssetType where
  | BinaryFile
  | TextFile
  | Texture
  | Shader
  | MaterialDefinition
  | Image
  | Sprite
  | SpriteSheet
  | Animation
  | Font
  | AudioClip
  | ConfigFile
  deriving DecidableEq, Repr

/-! ## resource_pack.cpp: PackResourceLocator -/

deriving instance DecidableEq for Except

/-- The class `Path`, of which the locator only uses `string()`. -/
structure Path where
  string : String
  deriving DecidableEq, Repr

/-- The classes the locator calls into and that are declared outside the translated
sources: `SystemAPI::getDataReader`, the constructor of `AssetPack`,
`AssetPack::getData`, `AssetPack::getAssetDatabase`, and the move constructor of
`String`.  The constructor of `AssetPack` and `AssetPack::getData` may throw (an
unreadable archive, an unknown asset); the exception is the `Except.error` value.
`movedFrom k` is the value left in a `String` that held `k` after
`std::move` has been applied to it and the result used to initialise another
`String` (the empty string when `String` moves like `std::string`, `k` itself when
it only copies). -/
structure Collaborators (Sys Reader Pack Data DB Err : Type) where
  getDataReader : Sys → String → Reader
  makeAssetPack : Reader → String → Bool → Except Err Pack
  packGetData : Pack → String → AssetType → Bool → Except Err Data
  packGetAssetDatabase : Pack → DB
  movedFrom : String → String

/-- Data members of `PackResourceLocator`: `path`, `encryptionKey`, `preLoad`, the
owned `assetPack` (null after a purge) and the `system` pointer (unset until a
purge stores one). -/
structure PackResourceLocator (Sys Pack : Type) where
  path : Path
  encryptionKey : String
  preLoad : Bool
  assetPack : Option Pack
  system : Option Sys
  deriving DecidableEq, Repr

/-- Collaborator calls made by the locator. -/
inductive Event (Sys Reader : Type) where
  | getDataReader (sys : Sys) (path : String)
  | makeAssetPack (reader : Reader) (encryptionKey : String) (preLoad : Bool)
  deriving DecidableEq, Repr

/-- How a member function ends: it returns a value, a collaborator's exception
leaves through it, or it dereferences a null pointer (undefined behaviour, no
value and no exception). -/
inductive Outcome (Err α : Type) where
  | returned (a : α)
  | thrown (e : Err)
  | nullDeref
  deriving DecidableEq, Repr

/-- The outcome of a collaborator call that may throw. -/
def Outcome.ofExcept {Err α : Type} : Except Err α → Outcome Err α
  | .ok a => .returned a
  | .error e => .thrown e

/-- Result of running a member function: outcome, object afterwards, collaborator
calls made. -/
structure Run (Sys Reader Pack Err α : Type) where
  outcome : Outcome Err α
  state : PackResourceLocator Sys Pack
  events : List (Event Sys Reader)

section Locator

variable {Sys Reader Pack Data DB Err : Type}

/-- Result of the constructor: the new object, or the exception that left the
constructor (then no object exists), with the collaborator calls made. -/
structure Constructed (Sys Reader Pack Err : Type) where
  result : Except Err (PackResourceLocator Sys Pack)
  events : List (Event Sys Reader)

/-- Constructor `PackResourceLocator::PackResourceLocator(reader, path, encryptionKey, preLoad)`.
The member initialisers move the parameters `path` and `encryptionKey` into the
members of the same names.  In the body the unqualified name `encryptionKey` is the
parameter, which has been moved from: the archive is built with
`c.movedFrom encryptionKey`.  `system` is not set by the constructor. -/
def PackResourceLocator.construct (c : Collaborators Sys Reader Pack Data DB Err)
    (reader : Reader) (path : Path) (encryptionKey : String) (preLoad : Bool) :
    Constructed Sys Reader Pack Err :=
  let memberPath := path
  let memberKey := encryptionKey
  let encryptionKeyParam := c.movedFrom encryptionKey
  let memberPreLoad := preLoad
  { result :=
      match c.makeAssetPack reader encryptionKeyParam preLoad with
      | .ok pack =>
          .ok { path := memberPath, encryptionKey := memberKey, preLoad := memberPreLoad,
                assetPack := some pack, system := none }
      | .error e => .error e
    events := [Event.makeAssetPack reader encryptionKeyParam preLoad] }

/-- Member function `PackResourceLocator::loadAfterPurge()`:
`assetPack = std::make_unique<AssetPack>(system->getDataReader(path.string()), encryptionKey, preLoad);`
Here `encryptionKey` and `preLoad` are the members.  `system->` on an unset pointer
is a null dereference; when the `AssetPack` constructor throws the assignment does
not happen. -/
def PackResourceLocator.loadAfterPurge (c : Collaborators Sys Reader Pack Data DB Err)
    (st : PackResourceLocator Sys Pack) : Run Sys Reader Pack Err Unit :=
  match st.system with
  | none => { outcome := .nullDeref, state := st, events := [] }
  | some sys =>
      let reader := c.getDataReader sys st.path.string
      let calls := [Event.getDataReader sys st.path.string,
                    Event.makeAssetPack reader st.encryptionKey st.preLoad]
      match c.makeAssetPack reader st.encryptionKey st.preLoad with
      | .ok pack => { outcome := .returned (), state := { st with assetPack := some pack },
                      events := calls }
      | .error e => { outcome := .thrown e, state := st, events := calls }

/-- The statement `if (!assetPack) { loadAfterPurge(); }` opening both readers. -/
def PackResourceLocator.reloadIfPurged (c : Collaborators Sys Reader Pack Data DB Err)
    (st : PackResourceLocator Sys Pack) : Run Sys Reader Pack Err Unit :=
  match st.assetPack with
  | none => PackResourceLocator.loadAfterPurge c st
  | some _ => { outcome := .returned (), state := st, events := [] }

/-- Sequencing of two statements: the second runs only when the first returned;
an exception or a fault of the first ends the function. -/
def Run.andThen {α : Type} (r : Run Sys Reader Pack Err Unit)
    (next : PackResourceLocator Sys Pack → Run Sys Reader Pack Err α) :
    Run Sys Reader Pack Err α :=
  match r.outcome with
  | .returned _ =>
      let r2 := next r.state
      { outcome := r2.outcome, state := r2.state, events := r.events ++ r2.events }
  | .thrown e => { outcome := .thrown e, state := r.state, events := r.events }
  | .nullDeref => { outcome := .nullDeref, state := r.state, events := r.events }

/-- Member function `PackResourceLocator::getData(asset, type, stream)`:
`if (!assetPack) { loadAfterPurge(); } return assetPack->getData(asset, type, stream);` -/
def PackResourceLocator.getData (c : Collaborators Sys Reader Pack Data DB Err)
    (st : PackResourceLocator Sys Pack) (asset : String) (type : AssetType) (stream : Bool) :
    Run Sys Reader Pack Err Data :=
  (PackResourceLocator.reloadIfPurged c st).andThen fun st1 =>
    match st1.assetPack with
    | none => { outcome := .nullDeref, state := st1, events := [] }
    | some pack =>
        { outcome := Outcome.ofExcept (c.packGetData pack asset type stream),
          state := st1, events := [] }

/-- Member function `PackResourceLocator::getAssetDatabase()`:
`if (!assetPack) { loadAfterPurge(); } return assetPack->getAssetDatabase();` -/
def PackResourceLocator.getAssetDatabase (c : Collaborators Sys Reader Pack Data DB Err)
    (st : PackResourceLocator Sys Pack) : Run Sys Reader Pack Err DB :=
  (PackResourceLocator.reloadIfPurged c st).andThen fun st1 =>
    match st1.assetPack with
    | none => { outcome := .nullDeref, state := st1, events := [] }
    | some pack =>
        { outcome := .returned (c.packGetAssetDatabase pack), state := st1, events := [] }

/-- Member function `PackResourceLocator::purge(sys, asset, type)`:
`assetPack.reset(); system = &sys;`  The parameters `asset` and `type` are not used. -/
def PackResourceLocator.purge (st : PackResourceLocator Sys Pack) (sys : Sys)
    (_asset : String) (_type : AssetType) : PackResourceLocator Sys Pack :=
  { st with assetPack := none, system := some sys }

end Locator

/-! ### A concrete pack, used to evaluate the locator -/

/-- Modelled from the spec: the error taxonomy of section 7 (`NotFound`,
`CorruptArchive`, `ServicesUnavailable`); the exception classes themselves are
declared outside the translated sources. -/
inductive ErrorKind where
  | NotFound
  | CorruptArchive
  | ServicesUnavailable
  deriving DecidableEq, Repr

/-- One stored entry of the concrete pack: name, type and payload bytes as stored. -/
structure PackEntry where
  name : String
  type : AssetType
  bytes : List Nat
  deriving DecidableEq, Repr

/-- The concrete archive: the entries it serves, after decryption. -/
structure DemoPack where
  entries : List PackEntry
  deriving DecidableEq, Repr

/-- Byte-wise decryption of the concrete pack: every byte is shifted back by the
length of the key, modulo 256.  With the empty key the bytes are left as stored
(no encryption). -/
def demoDecrypt (key : String) (bytes : List Nat) : List Nat :=
  bytes.map fun b => (b + 256 - key.length % 256) % 256

/-- Constructor of the concrete archive: an empty reader is not an archive, otherwise
every payload is decrypted with the key. -/
def demoMakeAssetPack (reader : List PackEntry) (key : String) (_preLoad : Bool) :
    Except ErrorKind DemoPack :=
  match reader with
  | [] => .error .CorruptArchive
  | _ => .ok { entries := reader.map fun e => { e with bytes := demoDecrypt key e.bytes } }

/-- Lookup in the concrete archive by name and type. -/
def demoGetData (pack : DemoPack) (asset : String) (type : AssetType) (_stream : Bool) :
    Except ErrorKind (List Nat) :=
  match pack.entries.find? fun e => e.name == asset && decide (e.type = type) with
  | some e => .ok e.bytes
  | none => .error .NotFound

/-- Index of the concrete archive: the names and types of its entries, in order. -/
def demoGetAssetDatabase (pack : DemoPack) : List (String × AssetType) :=
  pack.entries.map fun e => (e.name, e.type)

/-- The three-entry pack of the specification's scenario, stored encrypted under a
six-character key (every byte shifted up by 6). -/
def demoStored : List PackEntry :=
  [ { name := "hero.png", type := .Texture, bytes := [7, 8, 9] },
    { name := "theme.ogg", type := .AudioClip, bytes := [16, 26] },
    { name := "ui.font", type := .Font, bytes := [36] } ]

/-- Concrete collaborators: the services handle is a number, every handle serves
`demoStored` under the path `"pack.dat"` and nothing elsewhere, and a moved-from
`String` is empty. -/
def demo : Collaborators Nat (List PackEntry) DemoPack (List Nat)
    (List (String × AssetType)) ErrorKind where
  getDataReader := fun _ path => if path = "pack.dat" then demoStored else []
  makeAssetPack := demoMakeAssetPack
  packGetData := demoGetData
  packGetAssetDatabase := demoGetAssetDatabase
  movedFrom := fun _ => ""

/-- A locator whose archive is absent and that has no services handle. -/
def demoUnset : PackResourceLocator Nat DemoPack :=
  { path := ⟨"pack.dat"⟩, encryptionKey := "secret", preLoad := true,
    assetPack := none, system := none }

/-- A locator whose archive is absent, with services handle `5` on record. -/
def demoPurged : PackResourceLocator Nat DemoPack :=
  { demoUnset with system := some 5 }

/-- The archive obtained from `demoStored` with the key `"secret"`. -/
def demoOpened : DemoPack :=
  { entries :=
      [ { name := "hero.png", type := .Texture, bytes := [1, 2, 3] },
        { name := "theme.ogg", type := .AudioClip, bytes := [10, 20] },
        { name := "ui.font", type := .Font, bytes := [30] } ] }

/-- A locator holding `demoOpened`. -/
def demoLoaded : PackResourceLocator Nat DemoPack :=
  { demoUnset with assetPack := some demoOpened }

/-- The locator that the constructor returns for the stored pack, the path `"pack.dat"`,
the key `"secret"` and preload on: its archive was built with the moved-from (empty)
key, so it holds the bytes as stored. -/
def demoConstructed : PackResourceLocator Nat DemoPack :=
  { path := ⟨"pack.dat"⟩, encryptionKey := "secret", preLoad := true,
    assetPack := some { entries := demoStored }, system := none }

/-! ### Sequences of public operations -/

/-- One call of a public member function of the locator. -/
inductive LocatorOp (Sys : Type) where
  | getData (asset : String) (type : AssetType) (stream : Bool)
  | getAssetDatabase
  | purge (sys : Sys) (asset : String) (type : AssetType)
  deriving DecidableEq, Repr

section LocatorOps

variable {Sys Reader Pack Data DB Err : Type}

/-- The object after one public call. -/
def PackResourceLocator.apply (c : Collaborators Sys Reader Pack Data DB Err)
    (st : PackResourceLocator Sys Pack) : LocatorOp Sys → PackResourceLocator Sys Pack
  | .getData asset type stream => (PackResourceLocator.getData c st asset type stream).state
  | .getAssetDatabase => (PackResourceLocator.getAssetDatabase c st).state
  | .purge sys asset type => PackResourceLocator.purge st sys asset type

/-- The object after a sequence of public calls, first call first. -/
def PackResourceLocator.applyAll (c : Collaborators Sys Reader Pack Data DB Err)
    (st : PackResourceLocator Sys Pack) (ops : List (LocatorOp Sys)) :
    PackResourceLocator Sys Pack :=
  ops.foldl (PackResourceLocator.apply c) st

end LocatorOps

/-! ## resource.h: enumerator order and names -/

/-- The enumerators of `AssetType` in the order in which resource.h lists them. -/
def AssetType.enumerators : List AssetType :=
  [ .BinaryFile, .TextFile, .Texture, .Shader, .MaterialDefinition, .Image, .Sprite,
    .SpriteSheet, .Animation, .Font, .AudioClip, .ConfigFile ]

/-- Value of an enumerator: no enumerator has an initialiser, so the first is 0 and
each next one is one more, which is its position in the list. -/
def AssetType.ordinal (t : AssetType) : Nat :=
  AssetType.enumerators.indexOf t

/-- Spelling of each enumerator in resource.h. -/
def AssetType.identifier : AssetType → String
  | .BinaryFile => "BinaryFile"
  | .TextFile => "TextFile"
  | .Texture => "Texture"
  | .Shader => "Shader"
  | .MaterialDefinition => "MaterialDefinition"
  | .Image => "Image"
  | .Sprite => "Sprite"
  | .SpriteSheet => "SpriteSheet"
  | .Animation => "Animation"
  | .Font => "Font"
  | .AudioClip => "AudioClip"
  | .ConfigFile => "ConfigFile"

/-- The array returned by `EnumNames<AssetType>::operator()`. -/
def enumNamesAssetType : List String :=
  [ "binaryFile", "textFile", "texture", "shader", "materialDefinition", "image", "sprite",
    "spriteSheet", "animation", "font", "audioClip", "configFile" ]

/-! ## resource.h: AsyncResource -/

/-- Modelled from the spec: the load state of an `AsyncResource`, one of `NotStarted`,
`Loading`, `Loaded`, `Failed` (section 3).  resource.h declares the class with the
flags `failed` and `loading`; the bodies of its member functions are not in the
translated sources. -/
inductive LoadState where
  | NotStarted
  | Loading
  | Loaded
  | Failed
  deriving DecidableEq, Repr

/-- Why a call does not come back with a next state: it is a programming-contract
violation, which is fatal, or it blocks the calling thread. -/
inductive AsyncStop where
  | contractViolation
  | blocked
  deriving DecidableEq, Repr

/-- Modelled from the spec: the constructor of `AsyncResource` (body not in the
sources); a fresh resource is `NotStarted`. -/
def AsyncResource.create : LoadState := .NotStarted

/-- Modelled from the spec: `startLoading()` (body not in the sources) moves
`NotStarted` to `Loading`; called twice or once the state has left `NotStarted` it is
a fatal contract violation. -/
def AsyncResource.startLoading : LoadState → Except AsyncStop LoadState
  | .NotStarted => .ok .Loading
  | _ => .error .contractViolation

/-- Modelled from the spec: `doneLoading()` (body not in the sources) moves `Loading`
to `Loaded`.  The spec names no other transition for it and lets none leave a
terminal state: elsewhere the state stays as it is. -/
def AsyncResource.doneLoading : LoadState → Except AsyncStop LoadState
  | .Loading => .ok .Loaded
  | s => .ok s

/-- Modelled from the spec: `loadingFailed()` (body not in the sources) moves `Loading`
to `Failed`.  The spec names no other transition for it and lets none leave a
terminal state: elsewhere the state stays as it is. -/
def AsyncResource.loadingFailed : LoadState → Except AsyncStop LoadState
  | .Loading => .ok .Failed
  | s => .ok s

/-- Modelled from the spec: `waitForLoad()` (body not in the sources) returns at once in
a terminal state and changes nothing; in `NotStarted` and `Loading` it blocks the
caller until another thread reaches a terminal state. -/
def AsyncResource.waitForLoad : LoadState → Except AsyncStop LoadState
  | .Loaded => .ok .Loaded
  | .Failed => .ok .Failed
  | _ => .error .blocked

/-- Modelled from the spec: `isLoaded()` (body not in the sources), a non-blocking
check that is true only in `Loaded`. -/
def AsyncResource.isLoaded : LoadState → Bool
  | .Loaded => true
  | _ => false

/-- The public member functions of `AsyncResource` declared in resource.h. -/
inductive AsyncCall where
  | startLoading
  | doneLoading
  | loadingFailed
  | waitForLoad
  | isLoaded
  deriving DecidableEq, Repr

/-- One call on a resource in state `s`; `isLoaded()` is `const` and leaves the
state as it is. -/
def AsyncResource.call (s : LoadState) : AsyncCall → Except AsyncStop LoadState
  | .startLoading => AsyncResource.startLoading s
  | .doneLoading => AsyncResource.doneLoading s
  | .loadingFailed => AsyncResource.loadingFailed s
  | .waitForLoad => AsyncResource.waitForLoad s
  | .isLoaded => .ok s

/-- A sequence of calls made one after the other, first call first; the sequence ends
at the first call that does not come back. -/
def AsyncResource.calls : LoadState → List AsyncCall → Except AsyncStop LoadState
  | s, [] => .ok s
  | s, c :: rest =>
      match AsyncResource.call s c with
      | .ok s1 => AsyncResource.calls s1 rest
      | .error e => .error e

/-! ## video_opengl.cpp: the queue of GL debug messages -/

/-- Values of the `GL_DEBUG_*` constants used by video_opengl.cpp.  They are defined in
gl_core_3_3.h, outside the translated sources, and are parameters here. -/
structure GLDebugEnums where
  GL_DEBUG_SOURCE_API : Nat
  GL_DEBUG_SOURCE_WINDOW_SYSTEM : Nat
  GL_DEBUG_SOURCE_SHADER_COMPILER : Nat
  GL_DEBUG_SOURCE_THIRD_PARTY : Nat
  GL_DEBUG_SOURCE_APPLICATION : Nat
  GL_DEBUG_SOURCE_OTHER : Nat
  GL_DEBUG_TYPE_ERROR : Nat
  GL_DEBUG_TYPE_DEPRECATED_BEHAVIOR : Nat
  GL_DEBUG_TYPE_UNDEFINED_BEHAVIOR : Nat
  GL_DEBUG_TYPE_PORTABILITY : Nat
  GL_DEBUG_TYPE_PERFORMANCE : Nat
  GL_DEBUG_TYPE_MARKER : Nat
  GL_DEBUG_TYPE_PUSH_GROUP : Nat
  GL_DEBUG_TYPE_POP_GROUP : Nat
  GL_DEBUG_TYPE_OTHER : Nat
  GL_DEBUG_SEVERITY_HIGH : Nat
  GL_DEBUG_SEVERITY_MEDIUM : Nat
  GL_DEBUG_SEVERITY_LOW : Nat
  GL_DEBUG_SEVERITY_NOTIFICATION : Nat

/-- The values the OpenGL registry gives to the constants (KHR_debug). -/
def khronosEnums : GLDebugEnums where
  GL_DEBUG_SOURCE_API := 0x8246
  GL_DEBUG_SOURCE_WINDOW_SYSTEM := 0x8247
  GL_DEBUG_SOURCE_SHADER_COMPILER := 0x8248
  GL_DEBUG_SOURCE_THIRD_PARTY := 0x8249
  GL_DEBUG_SOURCE_APPLICATION := 0x824A
  GL_DEBUG_SOURCE_OTHER := 0x824B
  GL_DEBUG_TYPE_ERROR := 0x824C
  GL_DEBUG_TYPE_DEPRECATED_BEHAVIOR := 0x824D
  GL_DEBUG_TYPE_UNDEFINED_BEHAVIOR := 0x824E
  GL_DEBUG_TYPE_PORTABILITY := 0x824F
  GL_DEBUG_TYPE_PERFORMANCE := 0x8250
  GL_DEBUG_TYPE_MARKER := 0x8268
  GL_DEBUG_TYPE_PUSH_GROUP := 0x8269
  GL_DEBUG_TYPE_POP_GROUP := 0x826A
  GL_DEBUG_TYPE_OTHER := 0x8251
  GL_DEBUG_SEVERITY_HIGH := 0x9146
  GL_DEBUG_SEVERITY_MEDIUM := 0x9147
  GL_DEBUG_SEVERITY_LOW := 0x9148
  GL_DEBUG_SEVERITY_NOTIFICATION := 0x826B

/-- The member `glEnumMap`, a `std::map` from GL enum values to names: an association
list with at most one pair per key. -/
structure GLEnumMap where
  entries : List (Nat × String)
  deriving DecidableEq, Repr

/-- The statement `glEnumMap[key] = value;`: the key is inserted, or its value replaced. -/
def GLEnumMap.assign (m : GLEnumMap) (key : Nat) (value : String) : GLEnumMap :=
  { entries := (key, value) :: m.entries.filter fun kv => kv.1 != key }

/-- The call `glEnumMap.at(key)`: the value stored under the key, `none` when the key is
absent (`std::map::at` then throws `std::out_of_range`). -/
def GLEnumMap.atKey (m : GLEnumMap) (key : Nat) : Option String :=
  (m.entries.find? fun kv => kv.1 == key).map fun kv => kv.2

/-- What `std::cout` receives: a `ConsoleColor` (with a colour, or the default one), a
string, or `std::endl`. -/
inductive ConsoleItem where
  | color (name : Option String)
  | text (s : String)
  | endl
  deriving DecidableEq, Repr

/-- An element of `messagesPending`: the closure `[str] () { std::cout << ... }` pushed by
`onGLDebugMessage`, given by the string it captured. -/
structure PendingMessage where
  str : String
  deriving DecidableEq, Repr

/-- Calling the closure:
`std::cout << ConsoleColor(Console::YELLOW) << str << ConsoleColor() << std::endl;` -/
def PendingMessage.invoke (m : PendingMessage) (cout : List ConsoleItem) : List ConsoleItem :=
  cout ++ [.color (some "YELLOW"), .text m.str, .color none, .endl]

/-- The members of `VideoOpenGL` that the debug-message path reads and writes. -/
structure VideoOpenGL where
  glEnumMap : GLEnumMap
  messagesPending : List PendingMessage
  deriving DecidableEq, Repr

/-- Member function `VideoOpenGL::setUpEnumMap()`: nineteen assignments, in source order. -/
def VideoOpenGL.setUpEnumMap (k : GLDebugEnums) (v : VideoOpenGL) : VideoOpenGL :=
  let m := v.glEnumMap
  let m := m.assign k.GL_DEBUG_SOURCE_API "API"
  let m := m.assign k.GL_DEBUG_SOURCE_WINDOW_SYSTEM "Window System"
  let m := m.assign k.GL_DEBUG_SOURCE_SHADER_COMPILER "Shader Compiler"
  let m := m.assign k.GL_DEBUG_SOURCE_THIRD_PARTY "Third Party"
  let m := m.assign k.GL_DEBUG_SOURCE_APPLICATION "Application"
  let m := m.assign k.GL_DEBUG_SOURCE_OTHER "Other"
  let m := m.assign k.GL_DEBUG_TYPE_ERROR "Error"
  let m := m.assign k.GL_DEBUG_TYPE_DEPRECATED_BEHAVIOR "Deprecated Behaviour"
  let m := m.assign k.GL_DEBUG_TYPE_UNDEFINED_BEHAVIOR "Undefined Behaviour"
  let m := m.assign k.GL_DEBUG_TYPE_PORTABILITY "Portability"
  let m := m.assign k.GL_DEBUG_TYPE_PERFORMANCE "Performance"
  let m := m.assign k.GL_DEBUG_TYPE_MARKER "Marker"
  let m := m.assign k.GL_DEBUG_TYPE_PUSH_GROUP "Push Group"
  let m := m.assign k.GL_DEBUG_TYPE_POP_GROUP "Pop Group"
  let m := m.assign k.GL_DEBUG_TYPE_OTHER "Other"
  let m := m.assign k.GL_DEBUG_SEVERITY_HIGH "High"
  let m := m.assign k.GL_DEBUG_SEVERITY_MEDIUM "Medium"
  let m := m.assign k.GL_DEBUG_SEVERITY_LOW "Low"
  let m := m.assign k.GL_DEBUG_SEVERITY_NOTIFICATION "Notification"
  { v with glEnumMap := m }

/-- Member function `VideoOpenGL::onGLDebugMessage(source, type, id, severity, message)`.
For the three
severities the text is assembled from three `glEnumMap.at` look-ups, the decimal `id`
and the message, and a closure printing it is pushed to the back of
`messagesPending`; a look-up of an absent key throws before anything is pushed
(`none`).  Any other severity does nothing. -/
def VideoOpenGL.onGLDebugMessage (k : GLDebugEnums) (v : VideoOpenGL)
    (source type id severity : Nat) (message : String) : Option VideoOpenGL :=
  if severity = k.GL_DEBUG_SEVERITY_HIGH ∨ severity = k.GL_DEBUG_SEVERITY_MEDIUM
      ∨ severity = k.GL_DEBUG_SEVERITY_LOW then
    match v.glEnumMap.atKey source with
    | none => none
    | some sourceName =>
      match v.glEnumMap.atKey type with
      | none => none
      | some typeName =>
        match v.glEnumMap.atKey severity with
        | none => none
        | some severityName =>
          let str := "[" ++ sourceName ++ "] [" ++ typeName ++ "] [" ++ severityName ++ "] "
            ++ toString id ++ ": " ++ message
          some { v with messagesPending := v.messagesPending ++ [{ str := str }] }
  else
    some v

/-- Member function `VideoOpenGL::flip()` after the buffer swap: `msgs = std::move(messagesPending);`
takes the whole queue and leaves the member empty, then `for (const auto& m: msgs) m();`
calls the closures front to back.  Returns the object and `std::cout` afterwards. -/
def VideoOpenGL.flip (v : VideoOpenGL) (cout : List ConsoleItem) :
    VideoOpenGL × List ConsoleItem :=
  let msgs := v.messagesPending
  let v1 := { v with messagesPending := [] }
  (v1, msgs.foldl (fun out m => m.invoke out) cout)

/-- A `VideoOpenGL` after `init()` with the registry values, no message pending. -/
def demoVideo : VideoOpenGL :=
  VideoOpenGL.setUpEnumMap khronosEnums { glEnumMap := { entries := [] }, messagesPending := [] }

/-! ## video_opengl.cpp: window dimensions -/

/-- The class `Vector2i`: a pair of `int` components. -/
structure Vector2i where
  x : Int
  y : Int
  deriving DecidableEq, Repr

/-- The class `Vector2f`: a pair of `float` components.  A finite `float` is held as the
rational number it represents. -/
structure Vector2f where
  x : ℚ
  y : ℚ
  deriving DecidableEq, Repr

/-! ### The type `float`

Every `float` operation of the source computes the exact result of its operands and
rounds it once to a `float`.  The rounding is the parameter `rnd` of the functions
below: `rnd q` is the `float` nearest to the exact result `q`, and `none` when the
operation has no finite result (overflow; a division by zero gives `none` as well).
No finite value is followed once an operation has produced infinity or NaN: the
function then returns `none`.  `roundF32` is the rounding of IEEE 754 binary32,
`some` is arithmetic that never rounds. -/

/-- The power `2 ^ k` for an integer `k`. -/
def pow2 : Int → ℚ
  | Int.ofNat n => mkRat (2 ^ n : Nat) 1
  | Int.negSucc n => mkRat 1 (2 ^ (n + 1))

/-- Rounding of a rational to the nearest integer, a tie going to the even one. -/
def roundHalfEven (q : ℚ) : Int :=
  let f := Rat.floor q
  let r := q - f
  if r < 1 / 2 then f else if 1 / 2 < r then f + 1 else if f % 2 = 0 then f else f + 1

/-- The number of halvings that bring `n` below 2, counted with at most `fuel` steps. -/
def halvings : Nat → Nat → Nat
  | 0, _ => 0
  | fuel + 1, n => if n < 2 then 0 else halvings fuel (n / 2) + 1

/-- The position of the leading binary digit of `n`: the `k` with
`2 ^ k <= n < 2 ^ (k + 1)` for `n > 0`. -/
def leadingBit (n : Nat) : Nat :=
  halvings n n

/-- The exponent `e` with `2 ^ e <= a < 2 ^ (e + 1)`, for `a > 0`. -/
def binade (a : ℚ) : Int :=
  let k : Int := (leadingBit a.num.natAbs : Int) - (leadingBit a.den : Int)
  if pow2 k ≤ a then k else k - 1

/-- Rounding to IEEE 754 binary32, to nearest with ties to even: 24 significant bits,
exponents from -126 (below it the spacing stays `2 ^ (-149)`: subnormal numbers) to
127; a result that rounds to `2 ^ 128` or beyond is an overflow (`none`). -/
def roundF32 (q : ℚ) : Option ℚ :=
  if q = 0 then some 0 else
    let a := |q|
    let u := max (binade a) (-126) - 23
    let m := roundHalfEven (a / pow2 u)
    let r := (m : ℚ) * pow2 u
    if pow2 128 ≤ r then none else some (if q < 0 then -r else r)

/-- The conversion `(float) n` of an `int`. -/
def floatOfInt (rnd : ℚ → Option ℚ) (n : Int) : Option ℚ :=
  rnd (n : ℚ)

/-- The `float` sum `a + b`. -/
def floatAdd (rnd : ℚ → Option ℚ) (a b : ℚ) : Option ℚ :=
  rnd (a + b)

/-- The `float` difference `a - b`. -/
def floatSub (rnd : ℚ → Option ℚ) (a b : ℚ) : Option ℚ :=
  rnd (a - b)

/-- The `float` product `a * b`. -/
def floatMul (rnd : ℚ → Option ℚ) (a b : ℚ) : Option ℚ :=
  rnd (a * b)

/-- The `float` quotient `a / b`; a zero divisor gives infinity or NaN (`none`). -/
def floatDiv (rnd : ℚ → Option ℚ) (a b : ℚ) : Option ℚ :=
  if b = 0 then none else rnd (a / b)

/-- The conversion `Vector2f(v)` of a `Vector2i`: both components are converted. -/
def Vector2f.ofVector2i (rnd : ℚ → Option ℚ) (v : Vector2i) : Option Vector2f := do
  let x ← floatOfInt rnd v.x
  let y ← floatOfInt rnd v.y
  pure { x := x, y := y }

/-- The compound assignment `v *= s` of `Vector2f`: both components are multiplied. -/
def Vector2f.scaleBy (rnd : ℚ → Option ℚ) (v : Vector2f) (s : ℚ) : Option Vector2f := do
  let x ← floatMul rnd v.x s
  let y ← floatMul rnd v.y s
  pure { x := x, y := y }

/-- The members of `VideoOpenGL` that `updateWindowDimensions` reads and writes. -/
structure WindowDimensions where
  windowSize : Vector2i
  virtualSize : Vector2f
  p1 : Vector2f
  p2 : Vector2f
  scale : ℚ
  border : ℚ
  deriving DecidableEq, Repr

/-- The branch `wAR > vAR` of `updateWindowDimensions` ("letterbox on left/right"):
`scale = windowSize.y / virtualSize.y;`
`border = (virtualSize.y * wAR - virtualSize.x) * 0.5f * scale;`
`p2 *= scale; p1.x += border; p2.x += border;` -/
def VideoOpenGL.letterboxLeftRight (rnd : ℚ → Option ℚ) (d : WindowDimensions) (wAR : ℚ) :
    Option WindowDimensions := do
  let windowY ← floatOfInt rnd d.windowSize.y
  let scale ← floatDiv rnd windowY d.virtualSize.y
  let t1 ← floatMul rnd d.virtualSize.y wAR
  let t2 ← floatSub rnd t1 d.virtualSize.x
  let t3 ← floatMul rnd t2 (1 / 2)
  let border ← floatMul rnd t3 scale
  let scaled ← d.p2.scaleBy rnd scale
  let p1x ← floatAdd rnd d.p1.x border
  let p2x ← floatAdd rnd scaled.x border
  pure { d with scale := scale, border := border, p1 := { d.p1 with x := p1x },
                p2 := { scaled with x := p2x } }

/-- The branch `else` of `updateWindowDimensions` ("letterbox on top/bottom"):
`scale = windowSize.x / virtualSize.x;`
`border = (virtualSize.x / wAR - virtualSize.y) * 0.5f * scale;`
`p2 *= scale; p1.y += border; p2.y += border;` -/
def VideoOpenGL.letterboxTopBottom (rnd : ℚ → Option ℚ) (d : WindowDimensions) (wAR : ℚ) :
    Option WindowDimensions := do
  let windowX ← floatOfInt rnd d.windowSize.x
  let scale ← floatDiv rnd windowX d.virtualSize.x
  let t1 ← floatDiv rnd d.virtualSize.x wAR
  let t2 ← floatSub rnd t1 d.virtualSize.y
  let t3 ← floatMul rnd t2 (1 / 2)
  let border ← floatMul rnd t3 scale
  let scaled ← d.p2.scaleBy rnd scale
  let p1y ← floatAdd rnd d.p1.y border
  let p2y ← floatAdd rnd scaled.y border
  pure { d with scale := scale, border := border, p1 := { d.p1 with y := p1y },
                p2 := { scaled with y := p2y } }

/-- Member function `VideoOpenGL::updateWindowDimensions()` over the `float` rounding
`rnd`.  First `border = 0;`.  With a zero virtual component, `virtualSize` and `p2`
become the converted window size and `scale` becomes 1 (`p1` is not assigned).
Otherwise `wAR = (float) windowSize.x / (float) windowSize.y` and
`vAR = virtualSize.x / virtualSize.y` are the two aspect ratios, `p1` is reset to the
origin, `p2` to `virtualSize`, and the test `wAR > vAR` chooses the branch.  The
constants 0, 1 and `0.5f` are `float`s. -/
def VideoOpenGL.updateWindowDimensions (rnd : ℚ → Option ℚ) (d : WindowDimensions) :
    Option WindowDimensions :=
  let d := { d with border := 0 }
  if d.virtualSize.x = 0 ∨ d.virtualSize.y = 0 then do
    let converted ← Vector2f.ofVector2i rnd d.windowSize
    pure { d with virtualSize := converted, p2 := converted, scale := 1 }
  else do
    let windowX ← floatOfInt rnd d.windowSize.x
    let windowY ← floatOfInt rnd d.windowSize.y
    let wAR ← floatDiv rnd windowX windowY
    let vAR ← floatDiv rnd d.virtualSize.x d.virtualSize.y
    let d := { d with p1 := { x := 0, y := 0 }, p2 := d.virtualSize }
    if wAR > vAR then
      VideoOpenGL.letterboxLeftRight rnd d wAR
    else
      VideoOpenGL.letterboxTopBottom rnd d wAR

/-- The exact results of the `float` operations (conversions included) that
`updateWindowDimensions` performs on `d`, in the order of the source, computed
without rounding.  When the rounding leaves each of them as it is, the call computes
in exact arithmetic. -/
def VideoOpenGL.operationResults (d : WindowDimensions) : List ℚ :=
  let wx : ℚ := (d.windowSize.x : ℚ)
  let wy : ℚ := (d.windowSize.y : ℚ)
  let vx := d.virtualSize.x
  let vy := d.virtualSize.y
  if vx = 0 ∨ vy = 0 then
    [wx, wy]
  else
    let wAR := wx / wy
    let vAR := vx / vy
    if wAR > vAR then
      let scale := wy / vy
      let border := (vy * wAR - vx) * (1 / 2) * scale
      [wx, wy, wAR, vAR, scale, vy * wAR, vy * wAR - vx, (vy * wAR - vx) * (1 / 2), border,
        vx * scale, vy * scale, 0 + border, vx * scale + border]
    else
      let scale := wx / vx
      let border := (vx / wAR - vy) * (1 / 2) * scale
      [wx, wy, wAR, vAR, scale, vx / wAR, vx / wAR - vy, (vx / wAR - vy) * (1 / 2), border,
        vx * scale, vy * scale, 0 + border, vy * scale + border]

/-- A 1920 x 1080 window with a 1280 x 1024 virtual size; `p1`, `p2`, `scale` and
`border` hold values of an earlier call. -/
def demoWide : WindowDimensions :=
  { windowSize := { x := 1920, y := 1080 }, virtualSize := { x := 1280, y := 1024 },
    p1 := { x := 3, y := 4 }, p2 := { x := 5, y := 6 }, scale := 7, border := 8 }

/-- A 600 x 800 window with a 1280 x 1024 virtual size. -/
def demoTall : WindowDimensions :=
  { demoWide with windowSize := { x := 600, y := 800 } }

/-- A 1920 x 1080 window with no virtual size set. -/
def demoNoVirtual : WindowDimensions :=
  { demoWide with virtualSize := { x := 0, y := 0 } }

/-- A 2560 x 1024 window with a 640 x 512 virtual size: every operation of the call is
exact in binary32. -/
def demoWideExact : WindowDimensions :=
  { demoWide with windowSize := { x := 2560, y := 1024 }, virtualSize := { x := 640, y := 512 } }

/-- A 1280 x 2048 window with a 640 x 512 virtual size: every operation of the call is
exact in binary32. -/
def demoTallExact : WindowDimensions :=
  { demoWide with windowSize := { x := 1280, y := 2048 }, virtualSize := { x := 640, y := 512 } }

/-- A window 16777217 pixels wide (one more than `2 ^ 24`) with no virtual size set. -/
def demoHuge : WindowDimensions :=
  { demoNoVirtual with windowSize := { x := 16777217, y := 1080 } }

end Halley

/-! # Properties -/

namespace Halley

open PackResourceLocator

section LocatorProperties

variable {Sys Reader Pack Data DB Err : Type}

/-- With the archive absent and a handle on record, `loadAfterPurge` asks the handle for
one reader and builds the archive from it with the stored key and flag. -/
theorem loadAfterPurge_recorded (c : Collaborators Sys Reader Pack Data DB Err)
    (st : PackResourceLocator Sys Pack) (sys : Sys) (pack : Pack)
    (hsys : st.system = some sys)
    (hmk : c.makeAssetPack (c.getDataReader sys st.path.string) st.encryptionKey st.preLoad
      = .ok pack) :
    loadAfterPurge c st =
      { outcome := .returned (), state := { st with assetPack := some pack },
        events := [Event.getDataReader sys st.path.string,
          Event.makeAssetPack (c.getDataReader sys st.path.string) st.encryptionKey
            st.preLoad] } := by
  simp [loadAfterPurge, hsys, hmk]

/-- Archive present: `getData` forwards to it and changes nothing. -/
theorem getData_present (c : Collaborators Sys Reader Pack Data DB Err)
    (st : PackResourceLocator Sys Pack) (pack : Pack) (hp : st.assetPack = some pack)
    (asset : String) (type : AssetType) (stream : Bool) :
    getData c st asset type stream =
      { outcome := Outcome.ofExcept (c.packGetData pack asset type stream),
        state := st, events := [] } := by
  simp [getData, reloadIfPurged, hp, Run.andThen]

/-- Archive present: `getAssetDatabase` forwards to it and changes nothing. -/
theorem getAssetDatabase_present (c : Collaborators Sys Reader Pack Data DB Err)
    (st : PackResourceLocator Sys Pack) (pack : Pack) (hp : st.assetPack = some pack) :
    getAssetDatabase c st =
      { outcome := .returned (c.packGetAssetDatabase pack), state := st, events := [] } := by
  simp [getAssetDatabase, reloadIfPurged, hp, Run.andThen]

/-- Archive absent, handle recorded, construction succeeds: `getData` rebuilds once and
forwards to the new archive. -/
theorem getData_rebuilt (c : Collaborators Sys Reader Pack Data DB Err)
    (st : PackResourceLocator Sys Pack) (sys : Sys) (pack : Pack)
    (hp : st.assetPack = none) (hsys : st.system = some sys)
    (hmk : c.makeAssetPack (c.getDataReader sys st.path.string) st.encryptionKey st.preLoad
      = .ok pack)
    (asset : String) (type : AssetType) (stream : Bool) :
    getData c st asset type stream =
      { outcome := Outcome.ofExcept (c.packGetData pack asset type stream),
        state := { st with assetPack := some pack },
        events := [Event.getDataReader sys st.path.string,
          Event.makeAssetPack (c.getDataReader sys st.path.string) st.encryptionKey
            st.preLoad] } := by
  simp [getData, reloadIfPurged, hp, loadAfterPurge_recorded c st sys pack hsys hmk,
    Run.andThen]

/-- Archive absent, handle recorded, construction succeeds: `getAssetDatabase` rebuilds
once and forwards to the new archive. -/
theorem getAssetDatabase_rebuilt (c : Collaborators Sys Reader Pack Data DB Err)
    (st : PackResourceLocator Sys Pack) (sys : Sys) (pack : Pack)
    (hp : st.assetPack = none) (hsys : st.system = some sys)
    (hmk : c.makeAssetPack (c.getDataReader sys st.path.string) st.encryptionKey st.preLoad
      = .ok pack) :
    getAssetDatabase c st =
      { outcome := .returned (c.packGetAssetDatabase pack),
        state := { st with assetPack := some pack },
        events := [Event.getDataReader sys st.path.string,
          Event.makeAssetPack (c.getDataReader sys st.path.string) st.encryptionKey
            st.preLoad] } := by
  simp [getAssetDatabase, reloadIfPurged, hp, loadAfterPurge_recorded c st sys pack hsys hmk,
    Run.andThen]

/-- Archive absent, handle recorded, construction throws: the exception leaves through
`getData` and the archive stays absent. -/
theorem getData_rebuild_throws (c : Collaborators Sys Reader Pack Data DB Err)
    (st : PackResourceLocator Sys Pack) (sys : Sys) (e : Err)
    (hp : st.assetPack = none) (hsys : st.system = some sys)
    (hmk : c.makeAssetPack (c.getDataReader sys st.path.string) st.encryptionKey st.preLoad
      = .error e)
    (asset : String) (type : AssetType) (stream : Bool) :
    getData c st asset type stream =
      { outcome := .thrown e, state := st,
        events := [Event.getDataReader sys st.path.string,
          Event.makeAssetPack (c.getDataReader sys st.path.string) st.encryptionKey
            st.preLoad] } := by
  simp [getData, reloadIfPurged, hp, loadAfterPurge, hsys, hmk, Run.andThen]

/-- Archive absent, handle recorded, construction throws: the exception leaves through
`getAssetDatabase` and the archive stays absent. -/
theorem getAssetDatabase_rebuild_throws (c : Collaborators Sys Reader Pack Data DB Err)
    (st : PackResourceLocator Sys Pack) (sys : Sys) (e : Err)
    (hp : st.assetPack = none) (hsys : st.system = some sys)
    (hmk : c.makeAssetPack (c.getDataReader sys st.path.string) st.encryptionKey st.preLoad
      = .error e) :
    getAssetDatabase c st =
      { outcome := .thrown e, state := st,
        events := [Event.getDataReader sys st.path.string,
          Event.makeAssetPack (c.getDataReader sys st.path.string) st.encryptionKey
            st.preLoad] } := by
  simp [getAssetDatabase, reloadIfPurged, hp, loadAfterPurge, hsys, hmk, Run.andThen]

/-- Archive absent, no handle recorded: `getData` ends in the null dereference of
`loadAfterPurge`. -/
theorem getData_unset (c : Collaborators Sys Reader Pack Data DB Err)
    (st : PackResourceLocator Sys Pack) (hp : st.assetPack = none) (hsys : st.system = none)
    (asset : String) (type : AssetType) (stream : Bool) :
    getData c st asset type stream = { outcome := .nullDeref, state := st, events := [] } := by
  simp [getData, reloadIfPurged, hp, loadAfterPurge, hsys, Run.andThen]

/-- Archive absent, no handle recorded: `getAssetDatabase` ends in the null dereference of
`loadAfterPurge`. -/
theorem getAssetDatabase_unset (c : Collaborators Sys Reader Pack Data DB Err)
    (st : PackResourceLocator Sys Pack) (hp : st.assetPack = none) (hsys : st.system = none) :
    getAssetDatabase c st = { outcome := .nullDeref, state := st, events := [] } := by
  simp [getAssetDatabase, reloadIfPurged, hp, loadAfterPurge, hsys, Run.andThen]

/-- C1: with the archive absent and a services handle recorded, `getData` and
`getAssetDatabase` call the handle's `getDataReader(path)` once, build the archive
from that reader with the stored key and preload flag, forward the query to the
archive just built and leave it in place, so that a further read rebuilds nothing;
with the archive present they forward to it, change nothing and rebuild nothing. -/
theorem getData_getAssetDatabase_rebuild_once (c : Collaborators Sys Reader Pack Data DB Err)
    (st : PackResourceLocator Sys Pack) (asset : String) (type : AssetType) (stream : Bool) :
    (∀ (sys : Sys) (pack : Pack), st.assetPack = none → st.system = some sys →
      c.makeAssetPack (c.getDataReader sys st.path.string) st.encryptionKey st.preLoad
        = .ok pack →
      getData c st asset type stream =
          { outcome := Outcome.ofExcept (c.packGetData pack asset type stream),
            state := { st with assetPack := some pack },
            events := [Event.getDataReader sys st.path.string,
              Event.makeAssetPack (c.getDataReader sys st.path.string) st.encryptionKey
                st.preLoad] }
        ∧ getAssetDatabase c st =
          { outcome := .returned (c.packGetAssetDatabase pack),
            state := { st with assetPack := some pack },
            events := [Event.getDataReader sys st.path.string,
              Event.makeAssetPack (c.getDataReader sys st.path.string) st.encryptionKey
                st.preLoad] }
        ∧ (∀ (asset2 : String) (type2 : AssetType) (stream2 : Bool),
            (getData c (getData c st asset type stream).state asset2 type2 stream2).events = []
            ∧ (getAssetDatabase c (getData c st asset type stream).state).events = []
            ∧ (getData c (getAssetDatabase c st).state asset2 type2 stream2).events = []
            ∧ (getAssetDatabase c (getAssetDatabase c st).state).events = []))
    ∧ (∀ pack : Pack, st.assetPack = some pack →
      getData c st asset type stream =
          { outcome := Outcome.ofExcept (c.packGetData pack asset type stream),
            state := st, events := [] }
        ∧ getAssetDatabase c st =
          { outcome := .returned (c.packGetAssetDatabase pack), state := st, events := [] }) := by
  constructor
  · intro sys pack hnone hsys hmk
    have hget := getData_rebuilt c st sys pack hnone hsys hmk asset type stream
    have hdb := getAssetDatabase_rebuilt c st sys pack hnone hsys hmk
    refine ⟨hget, hdb, ?_⟩
    intro asset2 type2 stream2
    rw [hget, hdb]
    have h1 := getData_present c { st with assetPack := some pack } pack rfl asset2 type2 stream2
    have h2 := getAssetDatabase_present c { st with assetPack := some pack } pack rfl
    simp only [h1, h2, and_self]
  · intro pack hsome
    exact ⟨getData_present c st pack hsome asset type stream,
      getAssetDatabase_present c st pack hsome⟩

/-- C1 at the concrete pack: a read of `theme.ogg` from the purged locator fetches one
reader from handle 5 and builds the archive with the key `secret`; a read from the
loaded locator builds nothing. -/
theorem getData_getAssetDatabase_rebuild_once_witness :
    getData demo demoPurged "theme.ogg" .AudioClip false =
        { outcome := .returned [10, 20],
          state := { demoPurged with assetPack := some demoOpened },
          events := [Event.getDataReader 5 "pack.dat",
            Event.makeAssetPack demoStored "secret" true] }
      ∧ getData demo demoLoaded "theme.ogg" .AudioClip false =
        { outcome := .returned [10, 20], state := demoLoaded, events := [] } :=
  ⟨((getData_getAssetDatabase_rebuild_once demo demoPurged "theme.ogg" .AudioClip false).1
      5 demoOpened rfl rfl rfl).1,
   ((getData_getAssetDatabase_rebuild_once demo demoLoaded "theme.ogg" .AudioClip false).2
      demoOpened rfl).1⟩

/-- C2: `purge` leaves the archive absent and the given handle on record, keeps `path`,
`encryptionKey` and `preLoad`, whatever the state before, and the result is the
same for any two pairs of hints. -/
theorem purge_drops_archive_records_handle (st : PackResourceLocator Sys Pack) (sys : Sys)
    (asset : String) (type : AssetType) :
    purge st sys asset type =
        { path := st.path, encryptionKey := st.encryptionKey, preLoad := st.preLoad,
          assetPack := none, system := some sys }
      ∧ ∀ (asset2 : String) (type2 : AssetType),
          purge st sys asset2 type2 = purge st sys asset type :=
  ⟨rfl, fun _ _ => rfl⟩


/-- The constructor builds the archive with the moved-from key, `loadAfterPurge` with the
stored one: the two agree when moving a `String` leaves it unchanged. -/
theorem construct_events (c : Collaborators Sys Reader Pack Data DB Err) (reader : Reader)
    (path : Path) (encryptionKey : String) (preLoad : Bool) :
    (construct c reader path encryptionKey preLoad).events
      = [Event.makeAssetPack reader (c.movedFrom encryptionKey) preLoad] :=
  rfl

/-- C3: evaluated for the key `"secret"`, where a moved-from `String` is empty: the
constructor builds its archive with the key `""`, while the member keeps `"secret"` and
`loadAfterPurge` after a purge builds the archive with `"secret"`; the preload flag
is the same in both. -/
theorem construct_builds_with_moved_from_key :
    (construct demo demoStored ⟨"pack.dat"⟩ "secret" true).events
        = [Event.makeAssetPack demoStored "" true]
      ∧ (construct demo demoStored ⟨"pack.dat"⟩ "secret" true).result = .ok demoConstructed
      ∧ demoConstructed.encryptionKey = "secret"
      ∧ (loadAfterPurge demo (purge demoConstructed 5 "hero.png" .Texture)).events
        = [Event.getDataReader 5 "pack.dat", Event.makeAssetPack demoStored "secret" true] := by
  decide

/-- C4: evaluated on the stored pack, where the handle serves the same reader contents
as the constructor received: before the purge `getData` serves the bytes as stored
(archive built with the empty key), after the purge the decrypted bytes (archive
rebuilt with `"secret"`); the index is the same both times. -/
theorem purge_changes_served_bytes :
    (construct demo demoStored ⟨"pack.dat"⟩ "secret" true).result = .ok demoConstructed
      ∧ demo.getDataReader 5 demoConstructed.path.string = demoStored
      ∧ (getData demo demoConstructed "hero.png" .Texture false).outcome
        = .returned [7, 8, 9]
      ∧ (getData demo (purge demoConstructed 5 "hero.png" .Texture) "hero.png" .Texture
          false).outcome = .returned [1, 2, 3]
      ∧ (getAssetDatabase demo demoConstructed).outcome
        = (getAssetDatabase demo (purge demoConstructed 5 "hero.png" .Texture)).outcome := by
  decide

/-- The round trip through `purge` is lossless as soon as the constructor's archive is
built with the key itself: when moving a `String` leaves it unchanged and the handle
serves the constructor's reader contents, the index and every `getData` result are
the same before and after the purge. -/
theorem purge_roundtrip_of_key_kept (c : Collaborators Sys Reader Pack Data DB Err)
    (reader : Reader) (path : Path) (encryptionKey : String) (preLoad : Bool) (sys : Sys)
    (st : PackResourceLocator Sys Pack)
    (hkey : c.movedFrom encryptionKey = encryptionKey)
    (hreader : c.getDataReader sys path.string = reader)
    (hst : (construct c reader path encryptionKey preLoad).result = .ok st)
    (hint : String) (hintType : AssetType) (asset : String) (type : AssetType)
    (stream : Bool) :
    (getAssetDatabase c (purge st sys hint hintType)).outcome = (getAssetDatabase c st).outcome
      ∧ (getData c (purge st sys hint hintType) asset type stream).outcome
        = (getData c st asset type stream).outcome := by
  simp only [construct, hkey] at hst
  cases hmk : c.makeAssetPack reader encryptionKey preLoad with
  | error e => simp [hmk] at hst
  | ok pack =>
    simp only [hmk, Except.ok.injEq] at hst
    subst hst
    simp [getAssetDatabase, getData, reloadIfPurged, loadAfterPurge, purge, Run.andThen,
      hreader, hmk]


/-- Member function `getData` does not touch the recorded handle, and it never drops the
archive. -/
theorem getData_state (c : Collaborators Sys Reader Pack Data DB Err)
    (st : PackResourceLocator Sys Pack) (asset : String) (type : AssetType) (stream : Bool) :
    (getData c st asset type stream).state.system = st.system
      ∧ ((getData c st asset type stream).state.assetPack = none → st.assetPack = none) := by
  cases hp : st.assetPack with
  | some pack => simp [getData_present c st pack hp, hp]
  | none =>
    cases hs : st.system with
    | none => simp [getData_unset c st hp hs, hs]
    | some sys =>
      cases hmk : c.makeAssetPack (c.getDataReader sys st.path.string) st.encryptionKey
          st.preLoad with
      | error e => simp [getData_rebuild_throws c st sys e hp hs hmk, hs]
      | ok pack => simp [getData_rebuilt c st sys pack hp hs hmk, hs]

/-- Member function `getAssetDatabase` does not touch the recorded handle, and it never drops the
archive. -/
theorem getAssetDatabase_state (c : Collaborators Sys Reader Pack Data DB Err)
    (st : PackResourceLocator Sys Pack) :
    (getAssetDatabase c st).state.system = st.system
      ∧ ((getAssetDatabase c st).state.assetPack = none → st.assetPack = none) := by
  cases hp : st.assetPack with
  | some pack => simp [getAssetDatabase_present c st pack hp, hp]
  | none =>
    cases hs : st.system with
    | none => simp [getAssetDatabase_unset c st hp hs, hs]
    | some sys =>
      cases hmk : c.makeAssetPack (c.getDataReader sys st.path.string) st.encryptionKey
          st.preLoad with
      | error e => simp [getAssetDatabase_rebuild_throws c st sys e hp hs hmk, hs]
      | ok pack => simp [getAssetDatabase_rebuilt c st sys pack hp hs hmk, hs]

/-- The invariant carried along a sequence of public calls: an absent archive comes with
a recorded handle, put there by a purge among the calls made so far. -/
theorem applyAll_invariant (c : Collaborators Sys Reader Pack Data DB Err)
    (ops : List (LocatorOp Sys)) :
    ∀ (st : PackResourceLocator Sys Pack) (done : List (LocatorOp Sys)),
      (st.assetPack = none →
        ∃ sys, st.system = some sys ∧ ∃ a t, LocatorOp.purge sys a t ∈ done) →
      ((applyAll c st ops).assetPack = none →
        ∃ sys, (applyAll c st ops).system = some sys
          ∧ ∃ a t, LocatorOp.purge sys a t ∈ done ++ ops) := by
  induction ops with
  | nil =>
    intro st done h
    simpa [applyAll] using h
  | cons op rest ih =>
    intro st done h
    have hstep : (PackResourceLocator.apply c st op).assetPack = none →
        ∃ sys, (PackResourceLocator.apply c st op).system = some sys
          ∧ ∃ a t, LocatorOp.purge sys a t ∈ done ++ [op] := by
      cases op with
      | getData asset type stream =>
        intro hnone
        obtain ⟨sys, hsys, a, t, hmem⟩ := h ((getData_state c st asset type stream).2 hnone)
        exact ⟨sys, ((getData_state c st asset type stream).1).trans hsys, a, t,
          List.mem_append_left _ hmem⟩
      | getAssetDatabase =>
        intro hnone
        obtain ⟨sys, hsys, a, t, hmem⟩ := h ((getAssetDatabase_state c st).2 hnone)
        exact ⟨sys, ((getAssetDatabase_state c st).1).trans hsys, a, t,
          List.mem_append_left _ hmem⟩
      | purge sys asset type =>
        intro _
        exact ⟨sys, rfl, asset, type, by simp⟩
    have := ih (PackResourceLocator.apply c st op) (done ++ [op]) hstep
    simpa [applyAll, List.append_assoc] using this

/-- With a handle on record, or with the archive present, a reader does not end in a
null dereference. -/
theorem readers_no_nullDeref (c : Collaborators Sys Reader Pack Data DB Err)
    (st : PackResourceLocator Sys Pack)
    (h : st.assetPack = none → ∃ sys, st.system = some sys)
    (asset : String) (type : AssetType) (stream : Bool) :
    (getData c st asset type stream).outcome ≠ .nullDeref
      ∧ (getAssetDatabase c st).outcome ≠ .nullDeref := by
  cases hp : st.assetPack with
  | some pack =>
    rw [getData_present c st pack hp, getAssetDatabase_present c st pack hp]
    constructor
    · cases c.packGetData pack asset type stream <;> simp [Outcome.ofExcept]
    · simp
  | none =>
    obtain ⟨sys, hsys⟩ := h hp
    cases hmk : c.makeAssetPack (c.getDataReader sys st.path.string) st.encryptionKey
        st.preLoad with
    | error e =>
      rw [getData_rebuild_throws c st sys e hp hsys hmk,
        getAssetDatabase_rebuild_throws c st sys e hp hsys hmk]
      simp
    | ok pack =>
      rw [getData_rebuilt c st sys pack hp hsys hmk,
        getAssetDatabase_rebuilt c st sys pack hp hsys hmk]
      constructor
      · cases c.packGetData pack asset type stream <;> simp [Outcome.ofExcept]
      · simp

/-- C5: in the state reached from a constructed locator by any sequence of `getData`,
`getAssetDatabase` and `purge` calls, an absent archive comes with a services handle
recorded by a purge of that sequence, so the archive is never absent with no handle
on record and no reader ends in the null dereference of `loadAfterPurge`. -/
theorem reachable_absent_archive_has_handle (c : Collaborators Sys Reader Pack Data DB Err)
    (reader : Reader) (path : Path) (encryptionKey : String) (preLoad : Bool)
    (st0 : PackResourceLocator Sys Pack)
    (hst0 : (construct c reader path encryptionKey preLoad).result = .ok st0)
    (ops : List (LocatorOp Sys)) :
    ((applyAll c st0 ops).assetPack = none →
        ∃ sys, (applyAll c st0 ops).system = some sys ∧ ∃ a t, LocatorOp.purge sys a t ∈ ops)
      ∧ ¬ ((applyAll c st0 ops).assetPack = none ∧ (applyAll c st0 ops).system = none)
      ∧ ∀ (asset : String) (type : AssetType) (stream : Bool),
          (getData c (applyAll c st0 ops) asset type stream).outcome ≠ .nullDeref
          ∧ (getAssetDatabase c (applyAll c st0 ops)).outcome ≠ .nullDeref := by
  have hpresent : st0.assetPack ≠ none := by
    simp only [construct] at hst0
    cases hmk : c.makeAssetPack reader (c.movedFrom encryptionKey) preLoad with
    | error e => simp [hmk] at hst0
    | ok pack =>
      simp only [hmk, Except.ok.injEq] at hst0
      subst hst0
      simp
  have hinv := applyAll_invariant c ops st0 [] (fun h => absurd h hpresent)
  simp only [List.nil_append] at hinv
  refine ⟨hinv, ?_, ?_⟩
  · rintro ⟨hnone, hsys⟩
    obtain ⟨sys, hsome, -⟩ := hinv hnone
    simp [hsys] at hsome
  · intro asset type stream
    exact readers_no_nullDeref c _ (fun h => (hinv h).imp fun _ hx => hx.1) asset type stream

/-- C5 at the concrete pack: after read, purge, purge, read, purge the archive is absent
and the handle on record is the one of the last purge. -/
theorem reachable_absent_archive_has_handle_witness :
    (construct demo demoStored ⟨"pack.dat"⟩ "secret" true).result = .ok demoConstructed
      ∧ (applyAll demo demoConstructed
          [.getData "hero.png" .Texture false, .purge 4 "hero.png" .Texture,
           .purge 5 "ui.font" .Font, .getAssetDatabase, .purge 6 "" .BinaryFile]).system
        = some 6
      ∧ ¬ ((applyAll demo demoConstructed
          [.getData "hero.png" .Texture false, .purge 4 "hero.png" .Texture,
           .purge 5 "ui.font" .Font, .getAssetDatabase, .purge 6 "" .BinaryFile]).assetPack
            = none
        ∧ (applyAll demo demoConstructed
          [.getData "hero.png" .Texture false, .purge 4 "hero.png" .Texture,
           .purge 5 "ui.font" .Font, .getAssetDatabase, .purge 6 "" .BinaryFile]).system
            = none) :=
  ⟨by decide, by decide,
    (reachable_absent_archive_has_handle demo demoStored ⟨"pack.dat"⟩ "secret" true
      demoConstructed (by decide) _).2.1⟩


/-- C6, as stated, fails: with the archive absent and no handle on record the readers of
the concrete locator do not end with the `ServicesUnavailable` error (nor with any
other error) but in a null dereference. -/
theorem unset_handle_not_servicesUnavailable :
    (getData demo demoUnset "hero.png" .Texture false).outcome
        ≠ .thrown ErrorKind.ServicesUnavailable
      ∧ (getAssetDatabase demo demoUnset).outcome ≠ .thrown ErrorKind.ServicesUnavailable
      ∧ (loadAfterPurge demo demoUnset).outcome ≠ .thrown ErrorKind.ServicesUnavailable
      ∧ (getData demo demoUnset "hero.png" .Texture false).outcome = .nullDeref := by
  decide

/-- C6, amended: with the archive absent and no services handle on record,
`loadAfterPurge` makes no check and raises no error; it dereferences the unset
handle, and so do `getData` and `getAssetDatabase` through it.  At that point no
`getDataReader` call has been made, no archive has been built and the archive is
still absent. -/
theorem unset_handle_null_dereference (c : Collaborators Sys Reader Pack Data DB Err)
    (st : PackResourceLocator Sys Pack) (hp : st.assetPack = none) (hsys : st.system = none)
    (asset : String) (type : AssetType) (stream : Bool) :
    loadAfterPurge c st = { outcome := .nullDeref, state := st, events := [] }
      ∧ getData c st asset type stream = { outcome := .nullDeref, state := st, events := [] }
      ∧ getAssetDatabase c st = { outcome := .nullDeref, state := st, events := [] }
      ∧ (getData c st asset type stream).state.assetPack = none
      ∧ (getAssetDatabase c st).state.assetPack = none
      ∧ ∀ e : Err, (loadAfterPurge c st).outcome ≠ .thrown e
          ∧ (getData c st asset type stream).outcome ≠ .thrown e
          ∧ (getAssetDatabase c st).outcome ≠ .thrown e := by
  have h0 : loadAfterPurge c st = { outcome := .nullDeref, state := st, events := [] } := by
    simp [loadAfterPurge, hsys]
  have h1 := getData_unset c st hp hsys asset type stream
  have h2 := getAssetDatabase_unset c st hp hsys
  refine ⟨h0, h1, h2, ?_, ?_, ?_⟩
  · rw [h1]; exact hp
  · rw [h2]; exact hp
  · intro e
    rw [h0, h1, h2]
    simp

/-- C6 amended, at the concrete locator with no archive and no handle. -/
theorem unset_handle_null_dereference_witness :
    getData demo demoUnset "hero.png" .Texture false
        = { outcome := .nullDeref, state := demoUnset, events := [] }
      ∧ getAssetDatabase demo demoUnset
        = { outcome := .nullDeref, state := demoUnset, events := [] } :=
  ⟨(unset_handle_null_dereference demo demoUnset rfl rfl "hero.png" .Texture false).2.1,
   (unset_handle_null_dereference demo demoUnset rfl rfl "hero.png" .Texture false).2.2.1⟩

/-- C7: `getData` returns exactly what `getData` of the archive returns for the same
arguments and adds nothing of its own: when the archive returns a value the locator
returns that value, when the archive fails with an error the locator fails with that
same error (`NotFound` for a name missing from its index), and this holds on a
locator holding the archive (where nothing else changes), on one that rebuilds it,
and in particular right after a purge. -/
theorem getData_forwards_archive_outcome (c : Collaborators Sys Reader Pack Data DB Err)
    (st : PackResourceLocator Sys Pack) (asset : String) (type : AssetType) (stream : Bool) :
    (∀ pack : Pack, st.assetPack = some pack →
      (∀ data : Data, c.packGetData pack asset type stream = .ok data →
        getData c st asset type stream
          = { outcome := .returned data, state := st, events := [] })
      ∧ (∀ e : Err, c.packGetData pack asset type stream = .error e →
        getData c st asset type stream
          = { outcome := .thrown e, state := st, events := [] }))
    ∧ (∀ (sys : Sys) (pack : Pack), st.assetPack = none → st.system = some sys →
      c.makeAssetPack (c.getDataReader sys st.path.string) st.encryptionKey st.preLoad
        = .ok pack →
      (∀ data : Data, c.packGetData pack asset type stream = .ok data →
        (getData c st asset type stream).outcome = .returned data)
      ∧ (∀ e : Err, c.packGetData pack asset type stream = .error e →
        (getData c st asset type stream).outcome = .thrown e))
    ∧ (∀ (sys : Sys) (pack : Pack) (hint : String) (hintType : AssetType),
      c.makeAssetPack (c.getDataReader sys st.path.string) st.encryptionKey st.preLoad
        = .ok pack →
      (∀ data : Data, c.packGetData pack asset type stream = .ok data →
        (getData c (purge st sys hint hintType) asset type stream).outcome = .returned data)
      ∧ (∀ e : Err, c.packGetData pack asset type stream = .error e →
        (getData c (purge st sys hint hintType) asset type stream).outcome = .thrown e)) := by
  refine ⟨?_, ?_, ?_⟩
  · intro pack hp
    constructor
    · intro data hd
      rw [getData_present c st pack hp, hd]
      rfl
    · intro e he
      rw [getData_present c st pack hp, he]
      rfl
  · intro sys pack hp hsys hmk
    constructor
    · intro data hd
      rw [getData_rebuilt c st sys pack hp hsys hmk, hd]
      rfl
    · intro e he
      rw [getData_rebuilt c st sys pack hp hsys hmk, he]
      rfl
  · intro sys pack hint hintType hmk
    constructor
    · intro data hd
      rw [getData_rebuilt c (purge st sys hint hintType) sys pack rfl rfl hmk, hd]
      rfl
    · intro e he
      rw [getData_rebuilt c (purge st sys hint hintType) sys pack rfl rfl hmk, he]
      rfl

/-- C7 at the concrete pack, before and after a purge: `"theme.ogg"` is served with the
archive's bytes, and `"missing.png"`, which is in no index, ends with the archive's
`NotFound`. -/
theorem getData_forwards_archive_outcome_witness :
    getData demo demoLoaded "theme.ogg" .AudioClip false
        = { outcome := .returned [10, 20], state := demoLoaded, events := [] }
      ∧ getData demo demoLoaded "missing.png" .Texture false
        = { outcome := .thrown ErrorKind.NotFound, state := demoLoaded, events := [] }
      ∧ (getData demo (purge demoLoaded 5 "hero.png" .Texture) "theme.ogg" .AudioClip
          false).outcome = .returned [10, 20]
      ∧ (getData demo (purge demoLoaded 5 "hero.png" .Texture) "missing.png" .Texture
          false).outcome = .thrown ErrorKind.NotFound
      ∧ (getData demo demoPurged "ui.font" .Font true).outcome = .returned [30]
      ∧ (getData demo demoPurged "ui.font" .Texture true).outcome
        = .thrown ErrorKind.NotFound :=
  ⟨((getData_forwards_archive_outcome demo demoLoaded "theme.ogg" .AudioClip false).1
      demoOpened rfl).1 [10, 20] rfl,
   ((getData_forwards_archive_outcome demo demoLoaded "missing.png" .Texture false).1
      demoOpened rfl).2 ErrorKind.NotFound rfl,
   ((getData_forwards_archive_outcome demo demoLoaded "theme.ogg" .AudioClip false).2.2
      5 demoOpened "hero.png" .Texture rfl).1 [10, 20] rfl,
   ((getData_forwards_archive_outcome demo demoLoaded "missing.png" .Texture false).2.2
      5 demoOpened "hero.png" .Texture rfl).2 ErrorKind.NotFound rfl,
   ((getData_forwards_archive_outcome demo demoPurged "ui.font" .Font true).2.1
      5 demoOpened rfl rfl rfl).1 [30] rfl,
   ((getData_forwards_archive_outcome demo demoPurged "ui.font" .Texture true).2.1
      5 demoOpened rfl rfl rfl).2 ErrorKind.NotFound rfl⟩

end LocatorProperties

/-! ## AsyncResource -/

/-- From `Failed`, a sequence of calls either leaves the state `Failed` or stops at a
`startLoading()`, which is a contract violation there. -/
theorem calls_from_Failed (cs : List AsyncCall) :
    AsyncResource.calls .Failed cs = .ok .Failed
      ∨ (AsyncCall.startLoading ∈ cs
          ∧ AsyncResource.calls .Failed cs = .error .contractViolation) := by
  induction cs with
  | nil => exact Or.inl rfl
  | cons c rest ih =>
    cases c with
    | startLoading => exact Or.inr ⟨by simp, rfl⟩
    | doneLoading | loadingFailed | waitForLoad | isLoaded =>
      rcases ih with h | ⟨hmem, h⟩
      · exact Or.inl (by simpa [AsyncResource.calls, AsyncResource.call,
          AsyncResource.doneLoading, AsyncResource.loadingFailed,
          AsyncResource.waitForLoad] using h)
      · exact Or.inr ⟨List.mem_cons_of_mem _ hmem, by
          simpa [AsyncResource.calls, AsyncResource.call, AsyncResource.doneLoading,
            AsyncResource.loadingFailed, AsyncResource.waitForLoad] using h⟩

/-- C8: `isLoaded()` is true exactly in `Loaded`: false on a fresh resource, false after
`startLoading()`, true after `startLoading()` and `doneLoading()`, false after
`startLoading()` and `loadingFailed()`; and once `Failed` is reached every further
sequence of calls leaves the state `Failed`, where `isLoaded()` is false, unless it
stops at a `startLoading()`, which is a fatal contract violation there. -/
theorem isLoaded_exactly_in_Loaded :
    (∀ s : LoadState, AsyncResource.isLoaded s = true ↔ s = .Loaded)
      ∧ AsyncResource.isLoaded AsyncResource.create = false
      ∧ (AsyncResource.calls AsyncResource.create [.startLoading]).map AsyncResource.isLoaded
          = .ok false
      ∧ (AsyncResource.calls AsyncResource.create [.startLoading, .doneLoading]).map
          AsyncResource.isLoaded = .ok true
      ∧ AsyncResource.calls AsyncResource.create [.startLoading, .loadingFailed] = .ok .Failed
      ∧ (AsyncResource.calls AsyncResource.create [.startLoading, .loadingFailed]).map
          AsyncResource.isLoaded = .ok false
      ∧ (∀ cs : List AsyncCall,
          (AsyncResource.calls .Failed cs = .ok .Failed
            ∨ (AsyncCall.startLoading ∈ cs
                ∧ AsyncResource.calls .Failed cs = .error .contractViolation))
          ∧ (AsyncResource.calls .Failed cs).map AsyncResource.isLoaded ≠ .ok true) := by
  refine ⟨?_, rfl, rfl, rfl, rfl, rfl, ?_⟩
  · intro s
    cases s <;> simp [AsyncResource.isLoaded]
  · intro cs
    refine ⟨calls_from_Failed cs, ?_⟩
    rcases calls_from_Failed cs with h | ⟨-, h⟩ <;> rw [h] <;> decide

/-! ## AssetType -/

/-- Ordinals and names of `AssetType`: the twelve enumerators `BinaryFile` ..
`ConfigFile` have the ordinals 0 .. 11 in the listed order, `Shader` comes before
`MaterialDefinition` (the pair the comment above the enumeration gives as its
example), and `EnumNames<AssetType>` has twelve entries, the entry at each
enumerator's ordinal being that enumerator's name with a lower-case initial. -/
theorem assetType_ordinals_and_names :
    AssetType.Shader.ordinal < AssetType.MaterialDefinition.ordinal
      ∧ AssetType.enumerators.length = 12
      ∧ (∀ t : AssetType, t ∈ AssetType.enumerators)
      ∧ AssetType.enumerators.map AssetType.ordinal = List.range 12
      ∧ AssetType.BinaryFile.ordinal = 0
      ∧ AssetType.ConfigFile.ordinal = 11
      ∧ enumNamesAssetType.length = 12
      ∧ AssetType.enumerators.map (fun t => t.identifier.decapitalize) = enumNamesAssetType
      ∧ ∀ t : AssetType, enumNamesAssetType[t.ordinal]? = some t.identifier.decapitalize := by
  refine ⟨by decide, by decide, ?_, by decide, by decide, by decide, by decide,
    by decide, ?_⟩
  · intro t
    cases t <;> decide
  · intro t
    cases t <;> decide

/-! ## The queue of GL debug messages -/

/-- Calling the closures of a queue front to back prints, after what was printed before,
the four items of each message in queue order. -/
theorem foldl_invoke (msgs : List PendingMessage) :
    ∀ cout : List ConsoleItem,
      msgs.foldl (fun out m => m.invoke out) cout
        = cout ++ msgs.flatMap fun m => [.color (some "YELLOW"), .text m.str, .color none, .endl] := by
  induction msgs with
  | nil => intro cout; simp
  | cons m rest ih =>
    intro cout
    rw [List.foldl_cons, ih]
    simp [PendingMessage.invoke]

/-- C10: `onGLDebugMessage` with severity HIGH, MEDIUM or LOW, and with source, type and
severity among the keys of `glEnumMap`, puts exactly one message at the end of the
queue and keeps the messages before it; with any other severity it leaves the object
as it is.  `flip` leaves the queue empty and calls every message that was pending
once, in queue order: the output grows by the lines of the pending messages, first
appended first. -/
theorem debug_queue_append_and_drain (k : GLDebugEnums) (v : VideoOpenGL)
    (source type id severity : Nat) (message : String) (cout : List ConsoleItem) :
    ((severity = k.GL_DEBUG_SEVERITY_HIGH ∨ severity = k.GL_DEBUG_SEVERITY_MEDIUM
        ∨ severity = k.GL_DEBUG_SEVERITY_LOW) →
      ∀ sourceName typeName severityName : String,
        v.glEnumMap.atKey source = some sourceName →
        v.glEnumMap.atKey type = some typeName →
        v.glEnumMap.atKey severity = some severityName →
        VideoOpenGL.onGLDebugMessage k v source type id severity message
          = some { v with messagesPending := v.messagesPending ++
              [{ str := "[" ++ sourceName ++ "] [" ++ typeName ++ "] [" ++ severityName
                  ++ "] " ++ toString id ++ ": " ++ message }] })
    ∧ (¬ (severity = k.GL_DEBUG_SEVERITY_HIGH ∨ severity = k.GL_DEBUG_SEVERITY_MEDIUM
        ∨ severity = k.GL_DEBUG_SEVERITY_LOW) →
      VideoOpenGL.onGLDebugMessage k v source type id severity message = some v)
    ∧ (VideoOpenGL.flip v cout).1.messagesPending = []
    ∧ (VideoOpenGL.flip v cout).1.glEnumMap = v.glEnumMap
    ∧ (VideoOpenGL.flip v cout).2
        = cout ++ v.messagesPending.flatMap fun m =>
            [.color (some "YELLOW"), .text m.str, .color none, .endl] := by
  refine ⟨?_, ?_, rfl, rfl, ?_⟩
  · intro hsev sourceName typeName severityName hs ht hv
    simp [VideoOpenGL.onGLDebugMessage, hsev, hs, ht, hv]
  · intro hsev
    simp [VideoOpenGL.onGLDebugMessage, hsev]
  · simp [VideoOpenGL.flip, foldl_invoke]

/-- C10 after `init()` with the registry values: a HIGH message from the API source is
queued, a NOTIFICATION is not, and `flip` prints the queued message and empties the
queue. -/
theorem debug_queue_append_and_drain_witness :
    VideoOpenGL.onGLDebugMessage khronosEnums demoVideo 0x8246 0x824C 7 0x9146 "bad"
        = some { demoVideo with
            messagesPending := [{ str := "[API] [Error] [High] 7: bad" }] }
      ∧ VideoOpenGL.onGLDebugMessage khronosEnums demoVideo 0x8246 0x824C 7 0x826B "bad"
        = some demoVideo
      ∧ VideoOpenGL.flip
          { demoVideo with messagesPending := [{ str := "first" }, { str := "second" }] } []
        = (demoVideo,
            [.color (some "YELLOW"), .text "first", .color none, .endl,
             .color (some "YELLOW"), .text "second", .color none, .endl]) :=
  ⟨(debug_queue_append_and_drain khronosEnums demoVideo 0x8246 0x824C 7 0x9146 "bad" []).1
      (Or.inl rfl) "API" "Error" "High" (by decide) (by decide) (by decide),
   (debug_queue_append_and_drain khronosEnums demoVideo 0x8246 0x824C 7 0x826B "bad" []).2.1
      (by decide),
   by decide⟩

/-! ## Window dimensions -/

/-- With a zero virtual component the function sets `virtualSize` and `p2` to the
converted window size, `scale` to 1 and `border` to 0, and leaves `p1` as it was. -/
theorem updateWindowDimensions_noVirtual (rnd : ℚ → Option ℚ) (d : WindowDimensions)
    (h : d.virtualSize.x = 0 ∨ d.virtualSize.y = 0) (x y : ℚ)
    (hx : rnd (d.windowSize.x : ℚ) = some x) (hy : rnd (d.windowSize.y : ℚ) = some y) :
    VideoOpenGL.updateWindowDimensions rnd d =
      some { windowSize := d.windowSize, virtualSize := { x := x, y := y },
             p1 := d.p1, p2 := { x := x, y := y }, scale := 1, border := 0 } := by
  simp [VideoOpenGL.updateWindowDimensions, Vector2f.ofVector2i, floatOfInt, h, hx, hy]

/-- Result of the branch `wAR > vAR` (bars left and right) when no operation rounds. -/
theorem updateWindowDimensions_wide (rnd : ℚ → Option ℚ) (d : WindowDimensions)
    (hwy : (d.windowSize.y : ℚ) ≠ 0)
    (hx : d.virtualSize.x ≠ 0) (hy : d.virtualSize.y ≠ 0)
    (h : (d.windowSize.x : ℚ) / (d.windowSize.y : ℚ) > d.virtualSize.x / d.virtualSize.y)
    (hexact : ∀ q ∈ VideoOpenGL.operationResults d, rnd q = some q) :
    VideoOpenGL.updateWindowDimensions rnd d =
      some { windowSize := d.windowSize, virtualSize := d.virtualSize,
             p1 := { x := 0 + (d.virtualSize.y * ((d.windowSize.x : ℚ) / (d.windowSize.y : ℚ))
                       - d.virtualSize.x) * (1 / 2) * ((d.windowSize.y : ℚ) / d.virtualSize.y),
                     y := 0 },
             p2 := { x := d.virtualSize.x * ((d.windowSize.y : ℚ) / d.virtualSize.y)
                       + (d.virtualSize.y * ((d.windowSize.x : ℚ) / (d.windowSize.y : ℚ))
                       - d.virtualSize.x) * (1 / 2) * ((d.windowSize.y : ℚ) / d.virtualSize.y),
                     y := d.virtualSize.y * ((d.windowSize.y : ℚ) / d.virtualSize.y) },
             scale := (d.windowSize.y : ℚ) / d.virtualSize.y,
             border := (d.virtualSize.y * ((d.windowSize.x : ℚ) / (d.windowSize.y : ℚ))
                       - d.virtualSize.x) * (1 / 2)
                       * ((d.windowSize.y : ℚ) / d.virtualSize.y) } := by
  have hne : ¬ (d.virtualSize.x = 0 ∨ d.virtualSize.y = 0) := by
    rintro (h0 | h0)
    · exact hx h0
    · exact hy h0
  have hlt : d.virtualSize.x / d.virtualSize.y
      < (d.windowSize.x : ℚ) / (d.windowSize.y : ℚ) := h
  unfold VideoOpenGL.operationResults at hexact
  simp only [if_neg hne, gt_iff_lt, if_pos hlt, List.forall_mem_cons] at hexact
  obtain ⟨h1, h2, h3, h4, h5, h6, h7, h8, h9, h10, h11, h12, h13, -⟩ := hexact
  unfold VideoOpenGL.updateWindowDimensions VideoOpenGL.letterboxLeftRight
  simp only [if_neg hne, floatOfInt, floatDiv, floatMul, floatSub, floatAdd, Vector2f.scaleBy,
    h1, h2, h3, h4, h5, h6, h7, h8, h9, h10, h11, h12, h13, if_neg hwy, if_neg hy,
    Option.bind_eq_bind, Option.some_bind, Option.pure_def, bind_pure_comp, gt_iff_lt, if_pos hlt]

/-- Result of the branch `else` (bars top and bottom) when no operation rounds. -/
theorem updateWindowDimensions_tall (rnd : ℚ → Option ℚ) (d : WindowDimensions)
    (hwx : (d.windowSize.x : ℚ) ≠ 0) (hwy : (d.windowSize.y : ℚ) ≠ 0)
    (hx : d.virtualSize.x ≠ 0) (hy : d.virtualSize.y ≠ 0)
    (h : ¬ (d.windowSize.x : ℚ) / (d.windowSize.y : ℚ) > d.virtualSize.x / d.virtualSize.y)
    (hexact : ∀ q ∈ VideoOpenGL.operationResults d, rnd q = some q) :
    VideoOpenGL.updateWindowDimensions rnd d =
      some { windowSize := d.windowSize, virtualSize := d.virtualSize,
             p1 := { x := 0,
                     y := 0 + (d.virtualSize.x / ((d.windowSize.x : ℚ) / (d.windowSize.y : ℚ))
                       - d.virtualSize.y) * (1 / 2) * ((d.windowSize.x : ℚ) / d.virtualSize.x) },
             p2 := { x := d.virtualSize.x * ((d.windowSize.x : ℚ) / d.virtualSize.x),
                     y := d.virtualSize.y * ((d.windowSize.x : ℚ) / d.virtualSize.x)
                       + (d.virtualSize.x / ((d.windowSize.x : ℚ) / (d.windowSize.y : ℚ))
                       - d.virtualSize.y) * (1 / 2) * ((d.windowSize.x : ℚ) / d.virtualSize.x) },
             scale := (d.windowSize.x : ℚ) / d.virtualSize.x,
             border := (d.virtualSize.x / ((d.windowSize.x : ℚ) / (d.windowSize.y : ℚ))
                       - d.virtualSize.y) * (1 / 2)
                       * ((d.windowSize.x : ℚ) / d.virtualSize.x) } := by
  have hne : ¬ (d.virtualSize.x = 0 ∨ d.virtualSize.y = 0) := by
    rintro (h0 | h0)
    · exact hx h0
    · exact hy h0
  have hnlt : ¬ d.virtualSize.x / d.virtualSize.y
      < (d.windowSize.x : ℚ) / (d.windowSize.y : ℚ) := h
  have hwAR : (d.windowSize.x : ℚ) / (d.windowSize.y : ℚ) ≠ 0 := div_ne_zero hwx hwy
  unfold VideoOpenGL.operationResults at hexact
  simp only [if_neg hne, gt_iff_lt, if_neg hnlt, List.forall_mem_cons] at hexact
  obtain ⟨h1, h2, h3, h4, h5, h6, h7, h8, h9, h10, h11, h12, h13, -⟩ := hexact
  unfold VideoOpenGL.updateWindowDimensions VideoOpenGL.letterboxTopBottom
  simp only [if_neg hne, floatOfInt, floatDiv, floatMul, floatSub, floatAdd, Vector2f.scaleBy,
    h1, h2, h3, h4, h5, h6, h7, h8, h9, h10, h11, h12, h13, if_neg hwy, if_neg hy, if_neg hx,
    if_neg hwAR, Option.bind_eq_bind, Option.some_bind, Option.pure_def, bind_pure_comp,
    gt_iff_lt, if_neg hnlt]

/-- C11: when no `float` operation of the call rounds (exact arithmetic: each exact
result is left as it is by the rounding, as every result is with rational numbers),
`updateWindowDimensions`, for a window size and a virtual size with four positive
components, returns with `border >= 0` (and a positive `scale`, the sizes unchanged)
and a viewport from `p1` to `p2` with the virtual aspect ratio, centred in the window:
`p2 - p1 = virtualSize * scale` and `p1 + p2 = windowSize` on both axes; the border
lies on the x axis (`p1 = (border, 0)`) when the window is wider than the virtual
aspect ratio and on the y axis (`p1 = (0, border)`) otherwise.  When a virtual-size
component is 0, `virtualSize` and `p2` become the window size, `scale` 1 and `border`
0, the window size and `p1` staying as they were. -/
theorem updateWindowDimensions_letterbox (rnd : ℚ → Option ℚ) (d : WindowDimensions)
    (hexact : ∀ q ∈ VideoOpenGL.operationResults d, rnd q = some q) :
    (0 < d.windowSize.x → 0 < d.windowSize.y → 0 < d.virtualSize.x → 0 < d.virtualSize.y →
      ∃ r : WindowDimensions, VideoOpenGL.updateWindowDimensions rnd d = some r
        ∧ 0 ≤ r.border
        ∧ 0 < r.scale
        ∧ r.windowSize = d.windowSize
        ∧ r.virtualSize = d.virtualSize
        ∧ r.p2.x - r.p1.x = d.virtualSize.x * r.scale
        ∧ r.p2.y - r.p1.y = d.virtualSize.y * r.scale
        ∧ (r.p2.x - r.p1.x) * d.virtualSize.y = (r.p2.y - r.p1.y) * d.virtualSize.x
        ∧ r.p1.x + r.p2.x = (d.windowSize.x : ℚ)
        ∧ r.p1.y + r.p2.y = (d.windowSize.y : ℚ)
        ∧ ((d.windowSize.x : ℚ) / (d.windowSize.y : ℚ) > d.virtualSize.x / d.virtualSize.y →
            r.p1 = { x := r.border, y := 0 })
        ∧ (¬ (d.windowSize.x : ℚ) / (d.windowSize.y : ℚ) > d.virtualSize.x / d.virtualSize.y →
            r.p1 = { x := 0, y := r.border }))
    ∧ ((d.virtualSize.x = 0 ∨ d.virtualSize.y = 0) →
      VideoOpenGL.updateWindowDimensions rnd d =
        some { windowSize := d.windowSize,
               virtualSize := { x := (d.windowSize.x : ℚ), y := (d.windowSize.y : ℚ) },
               p1 := d.p1,
               p2 := { x := (d.windowSize.x : ℚ), y := (d.windowSize.y : ℚ) },
               scale := 1, border := 0 }) := by
  constructor
  · intro hwx hwy hvx hvy
    have hwxq : (0 : ℚ) < (d.windowSize.x : ℚ) := by exact_mod_cast hwx
    have hwyq : (0 : ℚ) < (d.windowSize.y : ℚ) := by exact_mod_cast hwy
    have hwx0 : (d.windowSize.x : ℚ) ≠ 0 := ne_of_gt hwxq
    have hwy0 : (d.windowSize.y : ℚ) ≠ 0 := ne_of_gt hwyq
    have hvx0 : d.virtualSize.x ≠ 0 := ne_of_gt hvx
    have hvy0 : d.virtualSize.y ≠ 0 := ne_of_gt hvy
    by_cases h : (d.windowSize.x : ℚ) / (d.windowSize.y : ℚ) > d.virtualSize.x / d.virtualSize.y
    · refine ⟨_, updateWindowDimensions_wide rnd d hwy0 hvx0 hvy0 h hexact, ?_⟩
      have hscale : 0 < (d.windowSize.y : ℚ) / d.virtualSize.y := div_pos hwyq hvy
      have hgap : 0 < d.virtualSize.y * ((d.windowSize.x : ℚ) / (d.windowSize.y : ℚ))
          - d.virtualSize.x := by
        have := mul_lt_mul_of_pos_left h hvy
        rw [mul_div_cancel₀ _ hvy0] at this
        linarith
      refine ⟨?_, hscale, rfl, rfl, ?_, ?_, ?_, ?_, ?_, ?_, ?_⟩
      · positivity
      · simp only; ring
      · simp only; ring
      · simp only; field_simp; ring
      · simp only; field_simp; ring
      · simp only; field_simp
      · intro _; simp
      · intro hn; exact absurd h hn
    · refine ⟨_, updateWindowDimensions_tall rnd d hwx0 hwy0 hvx0 hvy0 h hexact, ?_⟩
      have hscale : 0 < (d.windowSize.x : ℚ) / d.virtualSize.x := div_pos hwxq hvx
      have hle : (d.windowSize.x : ℚ) / (d.windowSize.y : ℚ)
          ≤ d.virtualSize.x / d.virtualSize.y := not_lt.mp h
      have hgap : 0 ≤ d.virtualSize.x / ((d.windowSize.x : ℚ) / (d.windowSize.y : ℚ))
          - d.virtualSize.y := by
        have hwAR : 0 < (d.windowSize.x : ℚ) / (d.windowSize.y : ℚ) := div_pos hwxq hwyq
        rw [sub_nonneg, le_div_iff₀ hwAR]
        have := mul_le_mul_of_nonneg_left hle (le_of_lt hvy)
        rw [mul_div_cancel₀ _ hvy0] at this
        exact this
      refine ⟨?_, hscale, rfl, rfl, ?_, ?_, ?_, ?_, ?_, ?_, ?_⟩
      · positivity
      · simp only; ring
      · simp only; ring
      · simp only; field_simp; ring
      · simp only; field_simp
      · simp only; field_simp; ring
      · intro hy; exact absurd hy h
      · intro _; simp
  · intro h
    have hlist : VideoOpenGL.operationResults d
        = [(d.windowSize.x : ℚ), (d.windowSize.y : ℚ)] := by
      simp [VideoOpenGL.operationResults, h]
    exact updateWindowDimensions_noVirtual rnd d h _ _
      (hexact _ (by rw [hlist]; simp)) (hexact _ (by rw [hlist]; simp))

/-- C11 in binary32, at a 2560 x 1024 and a 1280 x 2048 window with a 640 x 512 virtual
size (no operation rounds: bars of 640 left and right, of 512 top and bottom, scale
2) and at a 1920 x 1080 window with no virtual size; and in rational arithmetic at a
1920 x 1080 window with a 1280 x 1024 virtual size (bars of 285 left and right). -/
theorem updateWindowDimensions_letterbox_witness :
    ((∀ q ∈ VideoOpenGL.operationResults demoWideExact, roundF32 q = some q)
        ∧ VideoOpenGL.updateWindowDimensions roundF32 demoWideExact =
            some { windowSize := { x := 2560, y := 1024 }, virtualSize := { x := 640, y := 512 },
                   p1 := { x := 640, y := 0 }, p2 := { x := 1920, y := 1024 },
                   scale := 2, border := 640 }
        ∧ ∃ r : WindowDimensions,
            VideoOpenGL.updateWindowDimensions roundF32 demoWideExact = some r
            ∧ 0 ≤ r.border ∧ r.p1.x + r.p2.x = (demoWideExact.windowSize.x : ℚ)
            ∧ r.p1.y + r.p2.y = (demoWideExact.windowSize.y : ℚ))
      ∧ (VideoOpenGL.updateWindowDimensions roundF32 demoTallExact =
            some { windowSize := { x := 1280, y := 2048 }, virtualSize := { x := 640, y := 512 },
                   p1 := { x := 0, y := 512 }, p2 := { x := 1280, y := 1536 },
                   scale := 2, border := 512 }
        ∧ ∃ r : WindowDimensions,
            VideoOpenGL.updateWindowDimensions roundF32 demoTallExact = some r
            ∧ r.p1 = { x := 0, y := r.border }
            ∧ r.p2.y - r.p1.y = demoTallExact.virtualSize.y * r.scale)
      ∧ VideoOpenGL.updateWindowDimensions roundF32 demoNoVirtual =
          some { windowSize := demoNoVirtual.windowSize,
                 virtualSize := { x := (demoNoVirtual.windowSize.x : ℚ),
                                  y := (demoNoVirtual.windowSize.y : ℚ) },
                 p1 := demoNoVirtual.p1,
                 p2 := { x := (demoNoVirtual.windowSize.x : ℚ),
                         y := (demoNoVirtual.windowSize.y : ℚ) },
                 scale := 1, border := 0 }
      ∧ VideoOpenGL.updateWindowDimensions roundF32 demoNoVirtual =
          some { windowSize := { x := 1920, y := 1080 }, virtualSize := { x := 1920, y := 1080 },
                 p1 := { x := 3, y := 4 }, p2 := { x := 1920, y := 1080 },
                 scale := 1, border := 0 }
      ∧ (VideoOpenGL.updateWindowDimensions some demoWide =
            some { windowSize := { x := 1920, y := 1080 },
                   virtualSize := { x := 1280, y := 1024 },
                   p1 := { x := 285, y := 0 }, p2 := { x := 1635, y := 1080 },
                   scale := 135 / 128, border := 285 }
        ∧ ∃ r : WindowDimensions,
            VideoOpenGL.updateWindowDimensions some demoWide = some r
            ∧ r.p1 = { x := r.border, y := 0 }
            ∧ r.p1.x + r.p2.x = (demoWide.windowSize.x : ℚ)) :=
  have hWide := (updateWindowDimensions_letterbox roundF32 demoWideExact (by decide!)).1
    (by decide) (by decide) (by decide!) (by decide!)
  have hTall := (updateWindowDimensions_letterbox roundF32 demoTallExact (by decide!)).1
    (by decide) (by decide) (by decide!) (by decide!)
  have hRat := (updateWindowDimensions_letterbox some demoWide (fun _ _ => rfl)).1
    (by decide) (by decide) (by decide!) (by decide!)
  ⟨⟨by decide!, by decide!,
      hWide.imp fun _ hr => ⟨hr.1, hr.2.1, hr.2.2.2.2.2.2.2.2.1, hr.2.2.2.2.2.2.2.2.2.1⟩⟩,
    ⟨by decide!,
      hTall.imp fun _ hr => ⟨hr.1, hr.2.2.2.2.2.2.2.2.2.2.2 (by decide!), hr.2.2.2.2.2.2.1⟩⟩,
    (updateWindowDimensions_letterbox roundF32 demoNoVirtual (by decide!)).2 (Or.inl rfl),
    by decide!,
    ⟨by decide!,
      hRat.imp fun _ hr => ⟨hr.1, hr.2.2.2.2.2.2.2.2.2.2.1 (by decide!),
        hr.2.2.2.2.2.2.2.2.1⟩⟩⟩

/-- Where binary32 does round, the identities of exact arithmetic are missed by the
rounding error.  At a 600 x 800 window with a 1280 x 1024 virtual size rational
arithmetic gives a border of 160, binary32 gives `10485759 / 65536`
(159.9999847...), so that `p1.y + p2.y` is `52428799 / 65536` and not 800.  A window
width of 16777217 is converted to 16777216.  With a window height of 0 the first
division has no finite result. -/
theorem updateWindowDimensions_binary32_rounding :
    VideoOpenGL.updateWindowDimensions some demoTall =
        some { windowSize := { x := 600, y := 800 }, virtualSize := { x := 1280, y := 1024 },
               p1 := { x := 0, y := 160 }, p2 := { x := 600, y := 640 },
               scale := 15 / 32, border := 160 }
      ∧ VideoOpenGL.updateWindowDimensions roundF32 demoTall =
        some { windowSize := { x := 600, y := 800 }, virtualSize := { x := 1280, y := 1024 },
               p1 := { x := 0, y := 10485759 / 65536 }, p2 := { x := 600, y := 640 },
               scale := 15 / 32, border := 10485759 / 65536 }
      ∧ (VideoOpenGL.updateWindowDimensions roundF32 demoTall).map (fun r => r.p1.y + r.p2.y)
        = some (52428799 / 65536)
      ∧ ¬ (∀ q ∈ VideoOpenGL.operationResults demoTall, roundF32 q = some q)
      ∧ VideoOpenGL.updateWindowDimensions roundF32 demoHuge =
        some { windowSize := { x := 16777217, y := 1080 },
               virtualSize := { x := 16777216, y := 1080 },
               p1 := { x := 3, y := 4 }, p2 := { x := 16777216, y := 1080 },
               scale := 1, border := 0 }
      ∧ VideoOpenGL.updateWindowDimensions roundF32
          { demoWide with windowSize := { x := 1920, y := 0 } } = none := by
  refine ⟨?_, ?_, ?_, ?_, ?_, ?_⟩ <;> decide!

end Halley
